import Mathlib

/-!
Verification of the boolean-circuit evaluation engine and the
recognition-validation / action-dispatch layer of the tangible-interfaces
farm game (files `core/circuit_logic.py`, `core/phase_manager.py`,
`cv/base_processor.py`, `cv/action_handler.py`, `cv/phase_config.py`).

Python dictionaries with string keys are embedded as association lists
(`SMap`) with Python's update-in-place / append-at-end insertion semantics.
Python's `Optional[int]` values become `Option Int`; wall-clock timestamps
(floats compared by subtraction) become `ℚ`.
-/

set_option autoImplicit false

/-- Association-list model of a Python `dict` with string keys:
lookup finds the first (unique) matching key. -/
abbrev SMap (α : Type) := List (String × α)

namespace SMap

/-- Embeds `d.get(k)`: first entry whose key matches. -/
def get? {α : Type} : SMap α → String → Option α
  | [], _ => none
  | (k, v) :: rest, key => if k = key then some v else get? rest key

/-- Embeds `d[k] = v`: replace the value in place when the key exists,
otherwise append the new entry at the end (Python insertion order). -/
def insert {α : Type} : SMap α → String → α → SMap α
  | [], key, v => [(key, v)]
  | (k, w) :: rest, key, v =>
    if k = key then (k, v) :: rest else (k, w) :: insert rest key v

/-- The keys of the dictionary, in insertion order. -/
def keys {α : Type} (m : SMap α) : List String := m.map Prod.fst

@[simp] theorem get?_nil {α : Type} (key : String) : get? ([] : SMap α) key = none := rfl

theorem get?_cons {α : Type} (k key : String) (v : α) (rest : SMap α) :
    get? ((k, v) :: rest) key = if k = key then some v else get? rest key := rfl

/-- Looking up the key just inserted yields the inserted value. -/
theorem get?_insert_self {α : Type} (m : SMap α) (key : String) (v : α) :
    get? (insert m key v) key = some v := by
  induction m with
  | nil => simp [insert, get?]
  | cons hd tl ih =>
    obtain ⟨k, w⟩ := hd
    by_cases hk : k = key
    · simp [insert, hk, get?]
    · simp [insert, hk, get?, ih]

/-- Looking up a different key is unaffected by an insertion. -/
theorem get?_insert_ne {α : Type} (m : SMap α) (key key' : String) (v : α)
    (h : key ≠ key') : get? (insert m key v) key' = get? m key' := by
  induction m with
  | nil => simp [insert, get?, h]
  | cons hd tl ih =>
    obtain ⟨k, w⟩ := hd
    by_cases hk : k = key
    · subst hk
      simp [insert, get?, h]
    · simp only [insert, if_neg hk]
      rw [get?_cons, get?_cons, ih]

theorem get?_insert {α : Type} (m : SMap α) (key key' : String) (v : α) :
    get? (insert m key v) key' = if key = key' then some v else get? m key' := by
  by_cases h : key = key'
  · subst h; simp [get?_insert_self]
  · simp [h, get?_insert_ne m key key' v h]

/-- A key is present after an insertion iff it is the inserted key or
was present before. -/
theorem isSome_get?_insert {α : Type} (m : SMap α) (key key' : String) (v : α) :
    (get? (insert m key v) key').isSome = (key = key' || (get? m key').isSome) := by
  rw [get?_insert]
  by_cases h : key = key' <;> simp [h]

/-- Lookup after `List.filter` fails when the predicate rejects every
entry with the sought key. -/
theorem get?_filter_eq_none {α : Type} (m : SMap α) (p : String × α → Bool)
    (key : String) (h : ∀ v : α, p (key, v) = false) :
    get? (m.filter p) key = none := by
  induction m with
  | nil => rfl
  | cons hd tl ih =>
    obtain ⟨k, w⟩ := hd
    by_cases hp : p (k, w)
    · have hk : k ≠ key := by
        intro he; subst he; rw [h w] at hp; exact Bool.noConfusion hp
      simp [List.filter, hp, get?, hk, ih]
    · simp only [List.filter]
      rw [Bool.not_eq_true] at hp
      simp [hp, ih]

end SMap

/- ================================================================
   core/circuit_logic.py — gates
   ================================================================ -/

/-- The three gate classes (`AndGate`, `OrGate`, `NotGate`). -/
inductive GateKind where
  | andG : GateKind
  | orG : GateKind
  | notG : GateKind
deriving DecidableEq

/-- Embeds `Gate.has_valid_inputs`: every input is exactly 0 or 1
(`None` and any other integer are invalid). -/
def has_valid_inputs (inputs : List (Option Int)) : Bool :=
  inputs.all (fun inp => inp == some 0 || inp == some 1)

/-- Embeds `AndGate.evaluate`: `None` on an empty or invalid input list,
else 1 iff every input is 1. -/
def AndGate.evaluate (inputs : List (Option Int)) : Option Int :=
  if inputs.isEmpty || !has_valid_inputs inputs then none
  else if inputs.all (fun inp => inp == some 1) then some 1 else some 0

/-- Embeds `OrGate.evaluate`: `None` on an empty or invalid input list,
else 1 iff at least one input is 1. -/
def OrGate.evaluate (inputs : List (Option Int)) : Option Int :=
  if inputs.isEmpty || !has_valid_inputs inputs then none
  else if inputs.any (fun inp => inp == some 1) then some 1 else some 0

/-- Embeds `NotGate.evaluate`: `None` unless there is exactly one valid input,
else the complement of that input. -/
def NotGate.evaluate (inputs : List (Option Int)) : Option Int :=
  if inputs.length ≠ 1 || !has_valid_inputs inputs then none
  else if inputs.head? == some (some 0) then some 1 else some 0

/-- Dispatch of `evaluate` over the gate classes. -/
def Gate.evaluate : GateKind → List (Option Int) → Option Int
  | .andG, inputs => AndGate.evaluate inputs
  | .orG, inputs => OrGate.evaluate inputs
  | .notG, inputs => NotGate.evaluate inputs

/-- Embeds `CircuitEvaluator.GATE_TYPES`: map from gate-type string to gate class. -/
def GATE_TYPES : SMap GateKind :=
  [("and_gate", .andG), ("or_gate", .orG), ("not_gate", .notG)]

/-- Embeds `CircuitEvaluator.create_gate`. -/
def create_gate (gate_type : String) : Option GateKind :=
  GATE_TYPES.get? gate_type

/- ================================================================
   core/circuit_logic.py — CircuitEvaluator
   ================================================================ -/

/-- One zone configuration record from `cv/phase_config.py`. -/
structure ZoneConfig where
  name : String
  rect : Int × Int × Int × Int
  allowed_elements : List String
  inputs : List String
  marker_position : Int × Int
  result_position : Int × Int
deriving DecidableEq

/-- Whether `needle` occurs as a contiguous sublist of the second list. -/
def subListOf (needle : List Char) : List Char → Bool
  | [] => needle.isEmpty
  | c :: rest => needle.isPrefixOf (c :: rest) || subListOf needle rest

/-- Python's substring test `needle in hay` on strings. -/
def strContains (needle hay : String) : Bool :=
  subListOf needle.toList hay.toList

/-- Error message for an element placed in a zone that does not allow it. -/
def notPermittedMsg (game_element zone_name : String) : String :=
  "Elemento \x27" ++ game_element ++ "\x27 não é permitido na zona " ++ zone_name

/-- The loop inside `evaluate_zone` that gathers the upstream values of a
gate zone from the already-populated zone-value table; stops at the first
unevaluated or `None` input with that input's error message. -/
def collect_input_vals (zone_values : SMap (Option Int)) :
    List String → Except String (List Int)
  | [] => .ok []
  | z :: rest =>
    match zone_values.get? z with
    | none => .error ("Input \x27" ++ z ++ "\x27 ainda não foi avaliado")
    | some none => .error ("Input \x27" ++ z ++ "\x27 tem valor inválido")
    | some (some v) =>
      match collect_input_vals zone_values rest with
      | .error e => .error e
      | .ok vs => .ok (v :: vs)

/-- Embeds `CircuitEvaluator.evaluate_zone`: evaluates one zone against the current
zone-value table, returning `(value, is_valid, error_msg)`.  A falsy detected
object (`None` or `""`) is an empty zone; an unmapped or falsy-mapped object
is unrecognized; sources read the phase input context; gates read upstream
zones; an element outside `allowed_elements` still gets its value computed
but is flagged invalid with the not-permitted message. -/
def evaluate_zone (zone_values : SMap (Option Int)) (zone_name : String)
    (zone_config : ZoneConfig) (detected_object : Option String)
    (input_values : SMap Int) (object_mapping : SMap String) :
    Option Int × Bool × String :=
  match detected_object with
  | none => (none, false, "Zona " ++ zone_name ++ " está vazia")
  | some det =>
    if det = "" then (none, false, "Zona " ++ zone_name ++ " está vazia")
    else
      match object_mapping.get? det with
      | none => (none, false, "Objeto \x27" ++ det ++ "\x27 não é reconhecido pelo jogo")
      | some game_element =>
        if game_element = "" then
          (none, false, "Objeto \x27" ++ det ++ "\x27 não é reconhecido pelo jogo")
        else
          let is_allowed := zone_config.allowed_elements.contains game_element
          if game_element = "solar_input" ∨ game_element = "wind_input" then
            let input_key := if game_element = "solar_input" then "solar" else "eolico"
            match input_values.get? input_key with
            | none => (none, false, "Valor do input \x27" ++ input_key ++ "\x27 não definido")
            | some value =>
              let error_msg := if is_allowed then "" else notPermittedMsg game_element zone_name
              (some value, is_allowed, error_msg)
          else if (GATE_TYPES.get? game_element).isSome then
            if zone_config.inputs.isEmpty then
              (none, false, "Zona " ++ zone_name ++ " não tem inputs definidos")
            else
              match collect_input_vals zone_values zone_config.inputs with
              | .error e => (none, false, e)
              | .ok input_vals =>
                match create_gate game_element with
                | none => (none, false, "Tipo de porta \x27" ++ game_element ++ "\x27 inválido")
                | some gate =>
                  match Gate.evaluate gate (input_vals.map some) with
                  | none =>
                    (none, false,
                      "Erro ao avaliar porta " ++ game_element ++ " na zona " ++ zone_name)
                  | some result =>
                    let error_msg :=
                      if is_allowed then "" else notPermittedMsg game_element zone_name
                    (some result, is_allowed, error_msg)
          else
            (none, false,
              "Elemento \x27" ++ game_element ++ "\x27 não é um input nem uma porta válida")

/-- The dictionary comprehension `{zone["name"]: zone for zone in zones_config}`. -/
def zones_by_name (zones_config : List ZoneConfig) : SMap ZoneConfig :=
  zones_config.foldl (fun m z => m.insert z.name z) []

/-- Embeds `detected_objects.get(zone_name)`: `None` both when the key is absent
and when it is stored with value `None`. -/
def detected_get (m : SMap (Option String)) (z : String) : Option String :=
  (m.get? z).bind id

/-- One iteration of the `evaluate_circuit` loop body: stores the zone's
value in the table and reports this zone's error, if any. -/
def eval_zone_step (zones : SMap ZoneConfig) (detected_objects : SMap (Option String))
    (input_values : SMap Int) (object_mapping : SMap String)
    (zone_values : SMap (Option Int)) (zone_name : String) :
    SMap (Option Int) × Option String :=
  match zones.get? zone_name with
  | none =>
    (zone_values.insert zone_name none,
      some ("Zona \x27" ++ zone_name ++ "\x27 não encontrada na configuração"))
  | some zone_config =>
    let detected_obj := detected_get detected_objects zone_name
    let r := evaluate_zone zone_values zone_name zone_config detected_obj
      input_values object_mapping
    (zone_values.insert zone_name r.1, if r.2.1 then none else some r.2.2)

/-- The `evaluate_circuit` loop over `evaluation_order`, threading the
zone-value table and collecting the appended error messages in order. -/
def eval_loop (zones : SMap ZoneConfig) (detected_objects : SMap (Option String))
    (input_values : SMap Int) (object_mapping : SMap String) :
    List String → SMap (Option Int) → SMap (Option Int) × List String
  | [], zone_values => (zone_values, [])
  | zone_name :: rest, zone_values =>
    let s := eval_zone_step zones detected_objects input_values object_mapping
      zone_values zone_name
    let r := eval_loop zones detected_objects input_values object_mapping rest s.1
    (r.1, s.2.toList ++ r.2)

/-- Embeds `CircuitEvaluator` instance state (`self.zone_values`, `self.zone_objects`). -/
structure CircuitEvaluator where
  zone_values : SMap (Option Int)
  zone_objects : SMap (Option String)

/-- Embeds `CircuitEvaluator.evaluate_circuit` as a state transformer: resets
`self.zone_values` to `{}`, copies the detected objects, evaluates every
zone in `evaluation_order`, and returns the new state with the result. -/
def CircuitEvaluator.evaluate_circuit (_self : CircuitEvaluator)
    (zones_config : List ZoneConfig) (detected_objects : SMap (Option String))
    (input_values : SMap Int) (object_mapping : SMap String)
    (evaluation_order : List String) :
    CircuitEvaluator × (SMap (Option Int) × List String) :=
  let zones := zones_by_name zones_config
  let r := eval_loop zones detected_objects input_values object_mapping
    evaluation_order []
  (⟨r.1, detected_objects⟩, r)

/-- The value of `evaluate_circuit` (which never depends on prior evaluator
state, since the method clears `self.zone_values` on entry). -/
def evaluate_circuit (zones_config : List ZoneConfig)
    (detected_objects : SMap (Option String)) (input_values : SMap Int)
    (object_mapping : SMap String) (evaluation_order : List String) :
    SMap (Option Int) × List String :=
  (CircuitEvaluator.evaluate_circuit ⟨[], []⟩ zones_config detected_objects
    input_values object_mapping evaluation_order).2

/-- Embeds `CircuitEvaluator.get_final_output`: reads the output zone from the
zone-value table (`None` when absent or stored as `None`). -/
def get_final_output (zone_values : SMap (Option Int)) (output_zone : String) :
    Option Int :=
  (zone_values.get? output_zone).bind id

/- ================================================================
   core/phase_manager.py — PhaseManager.validate_phase
   ================================================================ -/

/-- A phase configuration record (`cv/phase_config.py`). -/
structure PhaseConfig where
  fase_id : Nat
  name : String
  description : String
  inputs : SMap Int
  expected_value : Option Int
  output_zone : String
  evaluation_order : List String
  zones : List ZoneConfig

/-- The completeness loop of `validate_phase`: every configured zone must
carry a non-`None` detected object. -/
def circuit_complete (zones_config : List ZoneConfig)
    (detected_objects : SMap (Option String)) : Bool :=
  zones_config.all (fun zone => (detected_get detected_objects zone.name).isSome)

/-- The error-classification step of `validate_phase`: substring priority
"não é reconhecido" over "não é permitido" over the generic wiring hint. -/
def error_summary (errors : List String) : String :=
  "Você ainda não conseguiu! " ++
    (if errors.any (fun err => strContains "não é reconhecido" err) then
      "Objeto inválido detectado."
    else if errors.any (fun err => strContains "não é permitido" err) then
      "Objeto não permitido na zona."
    else "Verifique a montagem do circuito.")

/-- Embeds `PhaseManager.validate_phase`: evaluates the circuit of the current
phase, then checks completeness, evaluator errors, and the expected output,
returning `(success, message, zone_values)`. -/
def validate_phase (current_phase : Option PhaseConfig)
    (detected_objects : SMap (Option String)) (object_mapping : SMap String) :
    Bool × String × SMap (Option Int) :=
  match current_phase with
  | none => (false, "Nenhuma fase configurada", [])
  | some phase =>
    let r := evaluate_circuit phase.zones detected_objects phase.inputs
      object_mapping phase.evaluation_order
    let zone_values := r.1
    let errors := r.2
    if !circuit_complete phase.zones detected_objects then
      (false, "Você ainda não conseguiu! Circuito incompleto.", zone_values)
    else if !errors.isEmpty then
      (false, error_summary errors, zone_values)
    else
      match get_final_output zone_values phase.output_zone with
      | none => (false, "Você ainda não conseguiu! Erro ao calcular saída.", zone_values)
      | some final_output =>
        if some final_output = phase.expected_value then
          (true, "Você conseguiu!", zone_values)
        else
          (false, "Você ainda não conseguiu! Resultado incorreto.", zone_values)

/- ================================================================
   cv/phase_config.py — static configuration data
   ================================================================ -/

/-- Embeds `OBJECT_TO_GAME_ELEMENT`: physical detection label → game element. -/
def OBJECT_TO_GAME_ELEMENT : SMap String :=
  [("remote", "solar_input"), ("clock", "wind_input"),
   ("orange", "and_gate"), ("cell phone", "or_gate"), ("scissors", "not_gate")]

/-- Embeds `FASE1_CONFIG`: night with wind (`solar=0`, `eolico=1`), GATE1 an AND of
INPUT1/INPUT2, GATE2 a NOT of GATE1, expected output 1 at GATE2. -/
def FASE1_CONFIG : PhaseConfig where
  fase_id := 1
  name := "Fase 1"
  description := "Noite com vento"
  inputs := [("solar", 0), ("eolico", 1)]
  expected_value := some 1
  output_zone := "GATE2"
  evaluation_order := ["INPUT1", "INPUT2", "GATE1", "GATE2"]
  zones :=
    [⟨"INPUT1", (450, 50, 750, 350), ["solar_input", "wind_input"], [],
      (470, 70), (600, 200)⟩,
     ⟨"INPUT2", (450, 650, 750, 950), ["solar_input", "wind_input"], [],
      (470, 670), (600, 800)⟩,
     ⟨"GATE1", (850, 350, 1150, 650), ["and_gate"], ["INPUT1", "INPUT2"],
      (870, 370), (1000, 500)⟩,
     ⟨"GATE2", (1250, 350, 1550, 650), ["not_gate"], ["GATE1"],
      (1270, 370), (1400, 500)⟩]

/- ================================================================
   cv/base_processor.py — BaseRecognitionProcessor
   ================================================================ -/

/-- Embeds `RECOGNITION_VALIDATION_TIME` from `cv/config.py` (seconds of dwell). -/
def RECOGNITION_VALIDATION_TIME : ℚ := 2

/-- Embeds `ACTION_COOLDOWN_TIME` from `cv/config.py` (seconds of cooldown). -/
def ACTION_COOLDOWN_TIME : ℚ := 2

/-- The mutable tracking state of a `BaseRecognitionProcessor`:
`recognition_start_times` maps an entity key to its tracked
`(name, zone, start_time)` triple, `validated_recognitions` maps the
composite string `key_name_zone` to the last commit timestamp. -/
structure ProcState where
  recognition_start_times : SMap (String × String × ℚ)
  validated_recognitions : SMap ℚ
deriving DecidableEq

/-- Python's `s.startswith(p)`. -/
def strStartsWith (p s : String) : Bool :=
  p.toList.isPrefixOf s.toList

/-- The composite key used for `validated_recognitions`. -/
def validatedKey (item_key recognition_name zone_name : String) : String :=
  item_key ++ "_" ++ recognition_name ++ "_" ++ zone_name

/-- Embeds `_clear_recognition_tracking`: drops the entity's tracked triple and
deletes every committed-recognition record whose key starts with `item_key`
(Python `key.startswith(item_key)`). -/
def clear_recognition_tracking (st : ProcState) (item_key : String) : ProcState where
  recognition_start_times :=
    st.recognition_start_times.filter (fun kv => !(kv.1 == item_key))
  validated_recognitions :=
    st.validated_recognitions.filter (fun kv => !(strStartsWith item_key kv.1))

/-- Embeds `_process_recognition_validation`: one tick of the temporal validator
for one entity.  Returns the new state and whether
`_execute_validated_recognition` was fired on this call. -/
def process_recognition_validation (st : ProcState) (recognition_name : String)
    (zone_name : Option String) (item_key : String) (current_time : ℚ) :
    ProcState × Bool :=
  match zone_name with
  | none => (clear_recognition_tracking st item_key, false)
  | some z =>
    if z = "" then (clear_recognition_tracking st item_key, false)
    else
      match st.recognition_start_times.get? item_key with
      | some (tracked_name, tracked_zone, start_time) =>
        if (tracked_name, tracked_zone) ≠ (recognition_name, z) then
          let st1 := clear_recognition_tracking st item_key
          ({ st1 with
              recognition_start_times := st1.recognition_start_times.insert
                item_key (recognition_name, z, current_time) }, false)
        else
          if current_time - start_time ≥ RECOGNITION_VALIDATION_TIME then
            let validated_key := validatedKey item_key recognition_name z
            match st.validated_recognitions.get? validated_key with
            | none =>
              ({ st with
                  validated_recognitions := st.validated_recognitions.insert
                    validated_key current_time }, true)
            | some last_validated =>
              if current_time - last_validated ≥ ACTION_COOLDOWN_TIME then
                ({ st with
                    validated_recognitions := st.validated_recognitions.insert
                      validated_key current_time }, true)
              else (st, false)
          else (st, false)
      | none =>
        ({ st with
            recognition_start_times := st.recognition_start_times.insert
              item_key (recognition_name, z, current_time) }, false)

/-- Embeds `_cleanup_undetected_items`: clears tracking for every tracked entity
missing from the currently-detected set. -/
def cleanup_undetected_items (st : ProcState)
    (currently_detected_items : List String) : ProcState :=
  let items_to_clean :=
    st.recognition_start_times.keys.filter
      (fun k => !(currently_detected_items.contains k))
  items_to_clean.foldl clear_recognition_tracking st

/- ================================================================
   cv/action_handler.py — ActionHandler.execute_action
   ================================================================ -/

/-- Embeds `GESTURE_HISTORY_SIZE` from `cv/config.py`. -/
def GESTURE_HISTORY_SIZE : Nat := 5

/-- One entry of `self.recognition_history`. -/
structure RecognitionData where
  rtype : String
  name : String
  zone : String
  item_info : String
  timestamp : ℚ
deriving DecidableEq

/-- The mutable state of an `ActionHandler`: the per-(name, zone) cooldown
table and the bounded recognition history. -/
structure AHState where
  action_cooldown : SMap ℚ
  recognition_history : List RecognitionData
deriving DecidableEq

/-- The cooldown key `f"{gesture_name}_{zone_name}"`. -/
def actionKey (gesture_name zone_name : String) : String :=
  gesture_name ++ "_" ++ zone_name

/-- Embeds `_is_action_on_cooldown`: true when the pair fired less than
`ACTION_COOLDOWN_TIME` ago. -/
def is_action_on_cooldown (st : AHState) (gesture_name zone_name : String)
    (current_time : ℚ) : Bool :=
  match st.action_cooldown.get? (actionKey gesture_name zone_name) with
  | some t => current_time - t < ACTION_COOLDOWN_TIME
  | none => false

/-- Embeds `_add_to_history`: append, evicting the oldest entry past capacity. -/
def add_to_history (st : AHState) (d : RecognitionData) : AHState :=
  let h := st.recognition_history ++ [d]
  { st with recognition_history :=
      if h.length > GESTURE_HISTORY_SIZE then h.drop 1 else h }

/-- Embeds `ActionHandler.execute_action`: returns without executing when the
(name, zone) pair is on cooldown; otherwise records history, dispatches the
action (reported as the returned `Bool`), and registers the cooldown. -/
def execute_action (st : AHState) (recognition_name zone_name item_info
    recognition_type : String) (now : ℚ) : AHState × Bool :=
  if is_action_on_cooldown st recognition_name zone_name now then (st, false)
  else
    let st1 := add_to_history st
      ⟨recognition_type, recognition_name, zone_name, item_info, now⟩
    let st2 := { st1 with
      action_cooldown := st1.action_cooldown.insert
        (actionKey recognition_name zone_name) now }
    (st2, true)

/- ================================================================
   Helper lemmas
   ================================================================ -/

theorem has_valid_inputs_iff (l : List (Option Int)) :
    has_valid_inputs l = true ↔ ∀ x ∈ l, x = some 0 ∨ x = some 1 := by
  simp [has_valid_inputs, List.all_eq_true]

/- ================================================================
   Claims
   ================================================================ -/


theorem isEmpty_false_of_ne_nil {α : Type} {l : List α} (h : l ≠ []) :
    l.isEmpty = false := by
  cases l with
  | nil => exact absurd rfl h
  | cons a t => rfl

theorem has_valid_inputs_false_iff (l : List (Option Int)) :
    has_valid_inputs l = false ↔ ∃ x ∈ l, ¬(x = some 0 ∨ x = some 1) := by
  rw [Bool.eq_false_iff, Ne, has_valid_inputs_iff]
  push_neg
  simp

theorem andGate_eval_of_valid (l : List (Option Int)) (he : l ≠ [])
    (hv : has_valid_inputs l = true) :
    AndGate.evaluate l =
      if l.all (fun inp => inp == some 1) then some 1 else some 0 := by
  simp [AndGate.evaluate, isEmpty_false_of_ne_nil he, hv]

theorem orGate_eval_of_valid (l : List (Option Int)) (he : l ≠ [])
    (hv : has_valid_inputs l = true) :
    OrGate.evaluate l =
      if l.any (fun inp => inp == some 1) then some 1 else some 0 := by
  simp [OrGate.evaluate, isEmpty_false_of_ne_nil he, hv]

theorem andGate_eval_of_invalid (l : List (Option Int))
    (hv : has_valid_inputs l = false) : AndGate.evaluate l = none := by
  simp [AndGate.evaluate, hv]

theorem orGate_eval_of_invalid (l : List (Option Int))
    (hv : has_valid_inputs l = false) : OrGate.evaluate l = none := by
  simp [OrGate.evaluate, hv]

theorem notGate_eval_of_invalid (l : List (Option Int))
    (hv : has_valid_inputs l = false) : NotGate.evaluate l = none := by
  simp [NotGate.evaluate, hv]

/-- Claim C7: `AND` evaluates to 1 iff its input list is non-empty, all
inputs lie in {0,1} and all are 1; to 0 iff non-empty, all in {0,1} and
some input is 0; and to `None` iff the list is empty or holds an invalid
value.  `OR` is the same with 1 iff some input is 1 and 0 iff all inputs
are 0.  `NOT` yields the complement of a single valid input and `None` for
any other shape of input. -/
theorem gate_evaluation_characterization (l : List (Option Int)) :
    (AndGate.evaluate l = some 1 ↔
      l ≠ [] ∧ (∀ x ∈ l, x = some 0 ∨ x = some 1) ∧ ∀ x ∈ l, x = some 1) ∧
    (AndGate.evaluate l = some 0 ↔
      l ≠ [] ∧ (∀ x ∈ l, x = some 0 ∨ x = some 1) ∧ ∃ x ∈ l, x = some 0) ∧
    (AndGate.evaluate l = none ↔
      l = [] ∨ ∃ x ∈ l, ¬(x = some 0 ∨ x = some 1)) ∧
    (OrGate.evaluate l = some 1 ↔
      l ≠ [] ∧ (∀ x ∈ l, x = some 0 ∨ x = some 1) ∧ ∃ x ∈ l, x = some 1) ∧
    (OrGate.evaluate l = some 0 ↔
      l ≠ [] ∧ (∀ x ∈ l, x = some 0 ∨ x = some 1) ∧ ∀ x ∈ l, x = some 0) ∧
    (OrGate.evaluate l = none ↔
      l = [] ∨ ∃ x ∈ l, ¬(x = some 0 ∨ x = some 1)) ∧
    (NotGate.evaluate l = some 1 ↔ l = [some 0]) ∧
    (NotGate.evaluate l = some 0 ↔ l = [some 1]) ∧
    (NotGate.evaluate l = none ↔ l ≠ [some 0] ∧ l ≠ [some 1]) := by
  by_cases he : l = []
  · subst he
    refine ⟨?_, ?_, ?_, ?_, ?_, ?_, ?_, ?_, ?_⟩ <;>
      simp [AndGate.evaluate, OrGate.evaluate, NotGate.evaluate]
  · by_cases hv : has_valid_inputs l = true
    · have hv' := (has_valid_inputs_iff l).mp hv
      have hnone : ¬(l = [] ∨ ∃ x ∈ l, ¬(x = some 0 ∨ x = some 1)) := by
        rintro (h0 | ⟨x, hx, hbad⟩)
        · exact he h0
        · exact hbad (hv' x hx)
      refine ⟨?_, ?_, ?_, ?_, ?_, ?_, ?_, ?_, ?_⟩
      · rw [andGate_eval_of_valid l he hv]
        by_cases ha : l.all (fun inp => inp == some 1) = true
        · rw [if_pos ha]
          simp only [List.all_eq_true, beq_iff_eq] at ha
          exact iff_of_true rfl ⟨he, hv', ha⟩
        · rw [if_neg ha]
          simp only [List.all_eq_true, beq_iff_eq] at ha
          push_neg at ha
          obtain ⟨x, hx, hx1⟩ := ha
          refine iff_of_false (by simp) ?_
          rintro ⟨-, -, hall⟩
          exact hx1 (hall x hx)
      · rw [andGate_eval_of_valid l he hv]
        by_cases ha : l.all (fun inp => inp == some 1) = true
        · rw [if_pos ha]
          simp only [List.all_eq_true, beq_iff_eq] at ha
          refine iff_of_false (by simp) ?_
          rintro ⟨-, -, x, hx, hx0⟩
          rw [ha x hx] at hx0
          simp at hx0
        · rw [if_neg ha]
          simp only [List.all_eq_true, beq_iff_eq] at ha
          push_neg at ha
          obtain ⟨x, hx, hx1⟩ := ha
          refine iff_of_true rfl ⟨he, hv', x, hx, ?_⟩
          rcases hv' x hx with h0 | h1
          · exact h0
          · exact absurd h1 hx1
      · rw [andGate_eval_of_valid l he hv]
        refine iff_of_false ?_ hnone
        by_cases ha : l.all (fun inp => inp == some 1) = true <;>
          simp [ha]
      · rw [orGate_eval_of_valid l he hv]
        by_cases ha : l.any (fun inp => inp == some 1) = true
        · rw [if_pos ha]
          simp only [List.any_eq_true, beq_iff_eq] at ha
          exact iff_of_true rfl ⟨he, hv', ha⟩
        · rw [if_neg ha]
          simp only [List.any_eq_true, beq_iff_eq] at ha
          push_neg at ha
          refine iff_of_false (by simp) ?_
          rintro ⟨-, -, x, hx, hx1⟩
          exact (ha x hx) hx1
      · rw [orGate_eval_of_valid l he hv]
        by_cases ha : l.any (fun inp => inp == some 1) = true
        · rw [if_pos ha]
          simp only [List.any_eq_true, beq_iff_eq] at ha
          obtain ⟨x, hx, hx1⟩ := ha
          refine iff_of_false (by simp) ?_
          rintro ⟨-, -, hall⟩
          rw [hall x hx] at hx1
          simp at hx1
        · rw [if_neg ha]
          simp only [List.any_eq_true, beq_iff_eq] at ha
          push_neg at ha
          refine iff_of_true rfl ⟨he, hv', fun x hx => ?_⟩
          rcases hv' x hx with h0 | h1
          · exact h0
          · exact absurd h1 (ha x hx)
      · rw [orGate_eval_of_valid l he hv]
        refine iff_of_false ?_ hnone
        by_cases ha : l.any (fun inp => inp == some 1) = true <;>
          simp [ha]
      · match l, he, hv' with
        | [x], _, hv' =>
          rcases hv' x (List.mem_singleton.mpr rfl) with h0 | h1 <;>
            subst_vars <;> simp [NotGate.evaluate, has_valid_inputs]
        | x :: y :: rest, _, _ =>
          simp [NotGate.evaluate]
      · match l, he, hv' with
        | [x], _, hv' =>
          rcases hv' x (List.mem_singleton.mpr rfl) with h0 | h1 <;>
            subst_vars <;> simp [NotGate.evaluate, has_valid_inputs]
        | x :: y :: rest, _, _ =>
          simp [NotGate.evaluate]
      · match l, he, hv' with
        | [x], _, hv' =>
          rcases hv' x (List.mem_singleton.mpr rfl) with h0 | h1 <;>
            subst_vars <;> simp [NotGate.evaluate, has_valid_inputs]
        | x :: y :: rest, _, _ =>
          simp [NotGate.evaluate]
    · have hvf : has_valid_inputs l = false := Bool.eq_false_iff.mpr hv
      obtain ⟨x0, hx0l, hx0bad⟩ := (has_valid_inputs_false_iff l).mp hvf
      have hnot0 : l ≠ [some 0] := by
        intro h; subst h
        exact hx0bad (Or.inl (List.mem_singleton.mp hx0l))
      have hnot1 : l ≠ [some 1] := by
        intro h; subst h
        exact hx0bad (Or.inr (List.mem_singleton.mp hx0l))
      have hbadval : ¬(l ≠ [] ∧ (∀ x ∈ l, x = some 0 ∨ x = some 1) ∧ True) :=
        fun h => hx0bad (h.2.1 x0 hx0l)
      refine ⟨?_, ?_, ?_, ?_, ?_, ?_, ?_, ?_, ?_⟩
      · rw [andGate_eval_of_invalid l hvf]
        refine iff_of_false (by simp) ?_
        rintro ⟨-, hval, -⟩; exact hx0bad (hval x0 hx0l)
      · rw [andGate_eval_of_invalid l hvf]
        refine iff_of_false (by simp) ?_
        rintro ⟨-, hval, -⟩; exact hx0bad (hval x0 hx0l)
      · rw [andGate_eval_of_invalid l hvf]
        exact iff_of_true rfl (Or.inr ⟨x0, hx0l, hx0bad⟩)
      · rw [orGate_eval_of_invalid l hvf]
        refine iff_of_false (by simp) ?_
        rintro ⟨-, hval, -⟩; exact hx0bad (hval x0 hx0l)
      · rw [orGate_eval_of_invalid l hvf]
        refine iff_of_false (by simp) ?_
        rintro ⟨-, hval, -⟩; exact hx0bad (hval x0 hx0l)
      · rw [orGate_eval_of_invalid l hvf]
        exact iff_of_true rfl (Or.inr ⟨x0, hx0l, hx0bad⟩)
      · rw [notGate_eval_of_invalid l hvf]
        exact iff_of_false (by simp) hnot0
      · rw [notGate_eval_of_invalid l hvf]
        exact iff_of_false (by simp) hnot1
      · rw [notGate_eval_of_invalid l hvf]
        exact iff_of_true rfl ⟨hnot0, hnot1⟩

/-- Claim C8: `evaluate_circuit` is a pure function of its arguments — the
method clears `self.zone_values` on entry, so two calls with identical
arguments return identical zone-value tables and identical error lists no
matter what state earlier calls left in the evaluator, and re-running the
call on the evaluator state it produced returns the same result. -/
theorem evaluate_circuit_deterministic (ev1 ev2 : CircuitEvaluator)
    (zones_config : List ZoneConfig) (detected_objects : SMap (Option String))
    (input_values : SMap Int) (object_mapping : SMap String)
    (evaluation_order : List String) :
    (CircuitEvaluator.evaluate_circuit ev1 zones_config detected_objects
        input_values object_mapping evaluation_order).2 =
      (CircuitEvaluator.evaluate_circuit ev2 zones_config detected_objects
        input_values object_mapping evaluation_order).2 ∧
    (CircuitEvaluator.evaluate_circuit
        (CircuitEvaluator.evaluate_circuit ev1 zones_config detected_objects
          input_values object_mapping evaluation_order).1
        zones_config detected_objects input_values object_mapping
        evaluation_order).2 =
      (CircuitEvaluator.evaluate_circuit ev1 zones_config detected_objects
        input_values object_mapping evaluation_order).2 ∧
    (CircuitEvaluator.evaluate_circuit ev1 zones_config detected_objects
        input_values object_mapping evaluation_order).2 =
      evaluate_circuit zones_config detected_objects input_values
        object_mapping evaluation_order :=
  ⟨rfl, rfl, rfl⟩

/-- Lemma: a key is present in the table produced by the evaluation loop
iff it was present in the starting table or occurs in the remaining
evaluation order. -/
theorem eval_loop_isSome (zones : SMap ZoneConfig)
    (detected_objects : SMap (Option String)) (input_values : SMap Int)
    (object_mapping : SMap String) (order : List String)
    (zone_values : SMap (Option Int)) (zn : String) :
    ((eval_loop zones detected_objects input_values object_mapping order
        zone_values).1.get? zn).isSome =
      ((zone_values.get? zn).isSome || order.contains zn) := by
  induction order generalizing zone_values with
  | nil => simp [eval_loop]
  | cons hd tl ih =>
    simp only [eval_loop]
    rw [ih]
    have hstep : ∀ s : SMap (Option Int) × Option String,
        s = eval_zone_step zones detected_objects input_values object_mapping
          zone_values hd →
        ((s.1.get? zn).isSome = ((zone_values.get? zn).isSome || (hd == zn))) := by
      rintro s rfl
      unfold eval_zone_step
      rcases hcfg : zones.get? hd with _ | zc <;>
        simp [SMap.isSome_get?_insert, hcfg] <;>
        by_cases h : hd = zn <;> simp [h]
    rw [hstep _ rfl]
    cases h : ((zone_values.get? zn).isSome : Bool) <;>
      by_cases h2 : hd = zn
    · simp [List.contains, h, h2]
    · have h3 : ¬ zn = hd := fun he => h2 he.symm
      simp [List.contains, h, h2, h3]
    · simp [List.contains, h, h2]
    · have h3 : ¬ zn = hd := fun he => h2 he.symm
      simp [List.contains, h, h2, h3]

/-- Claim C9: after `evaluate_circuit`, the zone-value table has an entry
(0, 1 or `None`) for a zone name iff that name occurs in
`evaluation_order` — every listed zone is recorded even when its
evaluation fails, and no other zone is recorded. -/
theorem evaluate_circuit_zone_values_domain (zones_config : List ZoneConfig)
    (detected_objects : SMap (Option String)) (input_values : SMap Int)
    (object_mapping : SMap String) (evaluation_order : List String)
    (zn : String) :
    (((evaluate_circuit zones_config detected_objects input_values
        object_mapping evaluation_order).1.get? zn).isSome) =
      true ↔ zn ∈ evaluation_order := by
  unfold evaluate_circuit CircuitEvaluator.evaluate_circuit
  rw [eval_loop_isSome]
  simp [List.contains_iff_exists_mem_beq]

/-- Claim C1: in the Fase 1 configuration (`solar=0`, `eolico=1`, GATE1 an
AND of INPUT1/INPUT2, GATE2 a NOT of GATE1, expected output 1 at GATE2),
whenever the detected objects map the two input zones to `wind_input` and
`solar_input` (in either order), GATE1's zone to `and_gate` and GATE2's
zone to `not_gate`, the circuit evaluates GATE1 to 0 and GATE2 to 1 with
no errors, and `validate_phase` succeeds with the fixed success message. -/
theorem fase1_validate_success
    (dets : SMap (Option String)) (om : SMap String) (o1 o2 o3 o4 : String)
    (hd1 : detected_get dets "INPUT1" = some o1)
    (hd2 : detected_get dets "INPUT2" = some o2)
    (hd3 : detected_get dets "GATE1" = some o3)
    (hd4 : detected_get dets "GATE2" = some o4)
    (ho1 : o1 ≠ "") (ho2 : o2 ≠ "") (ho3 : o3 ≠ "") (ho4 : o4 ≠ "")
    (hm12 : (om.get? o1 = some "wind_input" ∧ om.get? o2 = some "solar_input") ∨
            (om.get? o1 = some "solar_input" ∧ om.get? o2 = some "wind_input"))
    (hm3 : om.get? o3 = some "and_gate")
    (hm4 : om.get? o4 = some "not_gate") :
    (evaluate_circuit FASE1_CONFIG.zones dets FASE1_CONFIG.inputs om
        FASE1_CONFIG.evaluation_order).1.get? "GATE1" = some (some 0) ∧
    (evaluate_circuit FASE1_CONFIG.zones dets FASE1_CONFIG.inputs om
        FASE1_CONFIG.evaluation_order).1.get? "GATE2" = some (some 1) ∧
    (evaluate_circuit FASE1_CONFIG.zones dets FASE1_CONFIG.inputs om
        FASE1_CONFIG.evaluation_order).2 = [] ∧
    validate_phase (some FASE1_CONFIG) dets om =
      (true, "Você conseguiu!",
        (evaluate_circuit FASE1_CONFIG.zones dets FASE1_CONFIG.inputs om
          FASE1_CONFIG.evaluation_order).1) := by
  have hcomplete : circuit_complete FASE1_CONFIG.zones dets = true := by
    simp [circuit_complete, FASE1_CONFIG, hd1, hd2, hd3, hd4]
  rcases hm12 with ⟨hm1, hm2⟩ | ⟨hm1, hm2⟩
  · have heval : evaluate_circuit FASE1_CONFIG.zones dets FASE1_CONFIG.inputs
        om FASE1_CONFIG.evaluation_order =
        ([("INPUT1", some 1), ("INPUT2", some 0), ("GATE1", some 0),
          ("GATE2", some 1)], []) := by
      simp [evaluate_circuit, CircuitEvaluator.evaluate_circuit, FASE1_CONFIG,
        eval_loop, eval_zone_step, zones_by_name, evaluate_zone,
        collect_input_vals, SMap.insert, SMap.get?, hd1, hd2, hd3, hd4,
        ho1, ho2, ho3, ho4, hm1, hm2, hm3, hm4, GATE_TYPES, create_gate,
        Gate.evaluate, AndGate.evaluate, NotGate.evaluate, has_valid_inputs]
    refine ⟨?_, ?_, ?_, ?_⟩
    · rw [heval]; rfl
    · rw [heval]; rfl
    · rw [heval]
    · simp only [validate_phase]
      rw [heval, hcomplete]
      simp [get_final_output, SMap.get?, FASE1_CONFIG]
  · have heval : evaluate_circuit FASE1_CONFIG.zones dets FASE1_CONFIG.inputs
        om FASE1_CONFIG.evaluation_order =
        ([("INPUT1", some 0), ("INPUT2", some 1), ("GATE1", some 0),
          ("GATE2", some 1)], []) := by
      simp [evaluate_circuit, CircuitEvaluator.evaluate_circuit, FASE1_CONFIG,
        eval_loop, eval_zone_step, zones_by_name, evaluate_zone,
        collect_input_vals, SMap.insert, SMap.get?, hd1, hd2, hd3, hd4,
        ho1, ho2, ho3, ho4, hm1, hm2, hm3, hm4, GATE_TYPES, create_gate,
        Gate.evaluate, AndGate.evaluate, NotGate.evaluate, has_valid_inputs]
    refine ⟨?_, ?_, ?_, ?_⟩
    · rw [heval]; rfl
    · rw [heval]; rfl
    · rw [heval]
    · simp only [validate_phase]
      rw [heval, hcomplete]
      simp [get_final_output, SMap.get?, FASE1_CONFIG]

/-- Lemma: zones not named in the remaining evaluation order keep their
table entry through the evaluation loop. -/
theorem eval_loop_get?_of_not_mem (zones : SMap ZoneConfig)
    (detected_objects : SMap (Option String)) (input_values : SMap Int)
    (object_mapping : SMap String) (order : List String)
    (zone_values : SMap (Option Int)) (zn : String) (h : zn ∉ order) :
    (eval_loop zones detected_objects input_values object_mapping order
        zone_values).1.get? zn = zone_values.get? zn := by
  induction order generalizing zone_values with
  | nil => rfl
  | cons hd tl ih =>
    have hhd : hd ≠ zn := fun he => h (he ▸ List.mem_cons_self hd tl)
    have htl : zn ∉ tl := fun ht => h (List.mem_cons_of_mem hd ht)
    simp only [eval_loop]
    rw [ih _ htl]
    unfold eval_zone_step
    rcases hcfg : zones.get? hd with _ | zc <;>
      simp [SMap.get?_insert_ne _ _ _ _ hhd]

/-- Lemma: an empty zone (no detected object) that appears in the
evaluation order with a configuration ends the pass with value `None` in
the table and its "zone empty" error in the error list. -/
theorem eval_loop_empty_zone (zones : SMap ZoneConfig)
    (detected_objects : SMap (Option String)) (input_values : SMap Int)
    (object_mapping : SMap String) (order : List String)
    (zone_values : SMap (Option Int)) (zn : String) (zc : ZoneConfig)
    (hcfg : zones.get? zn = some zc)
    (hempty : detected_get detected_objects zn = none)
    (hmem : zn ∈ order) :
    (eval_loop zones detected_objects input_values object_mapping order
        zone_values).1.get? zn = some none ∧
    ("Zona " ++ zn ++ " está vazia") ∈
      (eval_loop zones detected_objects input_values object_mapping order
        zone_values).2 := by
  induction order generalizing zone_values with
  | nil => cases hmem
  | cons hd tl ih =>
    by_cases htl : zn ∈ tl
    · simp only [eval_loop]
      refine ⟨(ih _ htl).1, ?_⟩
      exact List.mem_append_right _ (ih _ htl).2
    · have hhd : hd = zn := by
        rcases List.mem_cons.mp hmem with h | h
        · exact h.symm
        · exact absurd h htl
      subst hhd
      simp only [eval_loop]
      have hstep : eval_zone_step zones detected_objects input_values
          object_mapping zone_values hd =
          (zone_values.insert hd none,
            some ("Zona " ++ hd ++ " está vazia")) := by
        unfold eval_zone_step
        rw [hcfg]
        simp [hempty, evaluate_zone]
      rw [hstep]
      constructor
      · rw [eval_loop_get?_of_not_mem _ _ _ _ _ _ _ htl]
        exact SMap.get?_insert_self _ _ _
      · exact List.mem_append_left _ (List.mem_singleton.mpr rfl)

/-- The Fase 1 detection table with INPUT2 left empty and the canonical
objects elsewhere. -/
def fase1_missing_input2_dets : SMap (Option String) :=
  [("INPUT1", some "clock"), ("GATE1", some "orange"), ("GATE2", some "scissors")]

/-- Claim C4: when a configured zone has no detected object, the evaluation
pass records `None` and the "zone empty" error for it yet still gives every
zone of the evaluation order an entry, and `validate_phase` fails with the
fixed "circuit incomplete" message while returning the partial table; in
the Fase 1 configuration with INPUT2 empty, GATE1 and GATE2 come back as
`None` in the returned zone values. -/
theorem empty_zone_partial_evaluation (phase : PhaseConfig)
    (dets : SMap (Option String)) (om : SMap String) (zn : String)
    (zc : ZoneConfig)
    (horder : zn ∈ phase.evaluation_order)
    (hcfg : (zones_by_name phase.zones).get? zn = some zc)
    (hzmem : zc ∈ phase.zones) (hname : zc.name = zn)
    (hempty : detected_get dets zn = none) :
    (evaluate_circuit phase.zones dets phase.inputs om
        phase.evaluation_order).1.get? zn = some none ∧
    ("Zona " ++ zn ++ " está vazia") ∈
      (evaluate_circuit phase.zones dets phase.inputs om
        phase.evaluation_order).2 ∧
    (phase.evaluation_order.all (fun z =>
      ((evaluate_circuit phase.zones dets phase.inputs om
        phase.evaluation_order).1.get? z).isSome)) = true ∧
    validate_phase (some phase) dets om =
      (false, "Você ainda não conseguiu! Circuito incompleto.",
        (evaluate_circuit phase.zones dets phase.inputs om
          phase.evaluation_order).1) ∧
    (evaluate_circuit FASE1_CONFIG.zones fase1_missing_input2_dets
        FASE1_CONFIG.inputs OBJECT_TO_GAME_ELEMENT
        FASE1_CONFIG.evaluation_order).1.get? "GATE1" = some none ∧
    (evaluate_circuit FASE1_CONFIG.zones fase1_missing_input2_dets
        FASE1_CONFIG.inputs OBJECT_TO_GAME_ELEMENT
        FASE1_CONFIG.evaluation_order).1.get? "GATE2" = some none := by
  have hmain := eval_loop_empty_zone (zones_by_name phase.zones) dets
    phase.inputs om phase.evaluation_order [] zn zc hcfg hempty horder
  have hincomplete : circuit_complete phase.zones dets = false := by
    rw [Bool.eq_false_iff]
    intro hall
    rw [circuit_complete, List.all_eq_true] at hall
    have := hall zc hzmem
    rw [hname, hempty] at this
    exact Bool.noConfusion this
  refine ⟨hmain.1, hmain.2, ?_, ?_, ?_, ?_⟩
  · rw [List.all_eq_true]
    intro z hz
    unfold evaluate_circuit CircuitEvaluator.evaluate_circuit
    rw [eval_loop_isSome]
    simp only [SMap.get?_nil, Option.isSome_none, Bool.false_or]
    exact List.elem_eq_true_of_mem hz
  · simp only [validate_phase, hincomplete]
    rfl
  · rfl
  · rfl

theorem subListOf_nil (h : List Char) : subListOf [] h = true := by
  cases h <;> simp [subListOf, List.isPrefixOf]

theorem subListOf_append_left (n h1 h2 : List Char)
    (h : subListOf n h2 = true) : subListOf n (h1 ++ h2) = true := by
  induction h1 with
  | nil => exact h
  | cons c t ih => simp [subListOf, ih]

theorem subListOf_append_right (n h1 h2 : List Char)
    (h : subListOf n h1 = true) : subListOf n (h1 ++ h2) = true := by
  induction h1 with
  | nil =>
    simp only [subListOf, List.isEmpty_iff] at h
    subst h
    exact subListOf_nil h2
  | cons c t ih =>
    simp only [subListOf, Bool.or_eq_true] at h ⊢
    rcases h with h | h
    · left
      rw [List.isPrefixOf_iff_prefix] at h ⊢
      exact h.trans (List.prefix_append _ _)
    · right
      exact ih h

/-- The not-permitted message always contains the "não é permitido"
marker that `validate_phase` classifies on. -/
theorem strContains_notPermittedMsg (g zn : String) :
    strContains "não é permitido" (notPermittedMsg g zn) = true := by
  unfold strContains notPermittedMsg
  have hdata : ("Elemento \x27" ++ g ++ "\x27 não é permitido na zona " ++ zn).toList
      = "Elemento \x27".toList ++
        (g.toList ++ ("\x27 não é permitido na zona ".toList ++ zn.toList)) := by
    simp [String.toList, String.data_append, List.append_assoc]
  rw [hdata]
  apply subListOf_append_left
  apply subListOf_append_left
  apply subListOf_append_right
  decide

/-- Lemma: the computed value of a zone never depends on its
`allowed_elements` list — legality only affects the flag and message. -/
theorem evaluate_zone_value_ignores_allowed (zvs : SMap (Option Int))
    (zn : String) (zc : ZoneConfig) (l : List String) (det : Option String)
    (iv : SMap Int) (om : SMap String) :
    (evaluate_zone zvs zn { zc with allowed_elements := l } det iv om).1 =
      (evaluate_zone zvs zn zc det iv om).1 := by
  rcases det with _ | d
  · rfl
  · simp only [evaluate_zone]
    repeat (first | rfl | split)

theorem evaluate_zone_not_allowed (zvs : SMap (Option Int)) (zn : String) (zc : ZoneConfig)
    (det g : String) (iv : SMap Int) (om : SMap String) (v : Int)
    (hdet : det ≠ "") (hmap : om.get? det = some g) (hg : g ≠ "")
    (hnal : g ∉ zc.allowed_elements)
    (hval : (evaluate_zone zvs zn zc (some det) iv om).1 = some v) :
    evaluate_zone zvs zn zc (some det) iv om =
      (some v, false, notPermittedMsg g zn) := by
  have hcon : zc.allowed_elements.contains g = false := by
    rw [Bool.eq_false_iff]
    intro hc
    exact hnal (List.mem_of_elem_eq_true hc)
  simp only [evaluate_zone, if_neg hdet, hmap, if_neg hg] at hval ⊢
  by_cases hsrc : g = "solar_input" ∨ g = "wind_input"
  · rw [if_pos hsrc] at hval ⊢
    rcases hi : iv.get? (if g = "solar_input" then "solar" else "eolico")
      with _ | value
    · rw [hi] at hval
      exact absurd hval (by simp)
    · rw [hi] at hval
      have hv2 : value = v := by simpa using hval
      subst hv2
      simp [hcon]
      try exact ⟨hnal, fun hmem => absurd hmem hnal⟩
  · rw [if_neg hsrc] at hval ⊢
    by_cases hgate : (GATE_TYPES.get? g).isSome = true
    · rw [if_pos hgate] at hval ⊢
      by_cases hin : zc.inputs.isEmpty = true
      · rw [if_pos hin] at hval
        exact absurd hval (by simp)
      · rw [if_neg hin] at hval ⊢
        rcases hc : collect_input_vals zvs zc.inputs with e | vals
        · simp only [hc] at hval; exact absurd hval (by simp)
        · simp only [hc] at hval
          rcases hcg : create_gate g with _ | gate
          · simp only [hcg] at hval; exact absurd hval (by simp)
          · simp only [hcg] at hval
            rcases he : Gate.evaluate gate (vals.map some) with _ | result
            · simp only [he] at hval; exact absurd hval (by simp)
            · simp only [he] at hval
              have hv2 : result = v := by simpa using hval
              subst hv2
              simp only [he]
              simp [hnal, hcon]
              try exact ⟨hnal, fun hmem => absurd hmem hnal⟩
    · rw [if_neg hgate] at hval
      exact absurd hval (by simp)

theorem validate_phase_not_permitted_msg (phase : PhaseConfig) (dets : SMap (Option String))
    (om : SMap String)
    (hcomp : circuit_complete phase.zones dets = true)
    (hperm : (evaluate_circuit phase.zones dets phase.inputs om
        phase.evaluation_order).2.any
        (fun e => strContains "não é permitido" e) = true)
    (hnrec : (evaluate_circuit phase.zones dets phase.inputs om
        phase.evaluation_order).2.any
        (fun e => strContains "não é reconhecido" e) = false) :
    validate_phase (some phase) dets om =
      (false, "Você ainda não conseguiu! Objeto não permitido na zona.",
        (evaluate_circuit phase.zones dets phase.inputs om
          phase.evaluation_order).1) := by
  have herr : (evaluate_circuit phase.zones dets phase.inputs om
      phase.evaluation_order).2.isEmpty = false := by
    rcases List.any_eq_true.mp hperm with ⟨e, he, -⟩
    cases hE : (evaluate_circuit phase.zones dets phase.inputs om
        phase.evaluation_order).2 with
    | nil => rw [hE] at he; cases he
    | cons a t => rfl
  simp only [validate_phase, hcomp, herr, error_summary, hperm, hnrec,
    Bool.not_true, Bool.not_false, if_false, if_true, ite_true, ite_false]
  simp

/-- Claim C3: an element placed in a zone whose `allowed_elements` does not
list it still has its value computed from the actually-placed element (the
value component of `evaluate_zone` is independent of `allowed_elements`);
when that computation yields a value, the zone is flagged invalid with the
"not permitted" error message; and a complete circuit whose evaluation
produced a "not permitted" error (and no "not recognized" error) fails
`validate_phase` with the not-permitted message class. -/
theorem illegal_element_still_computed (zvs : SMap (Option Int))
    (zn : String) (zc : ZoneConfig) (l : List String) (det g : String)
    (iv : SMap Int) (om : SMap String) (v : Int) (phase : PhaseConfig)
    (dets : SMap (Option String)) (om2 : SMap String)
    (hdet : det ≠ "") (hmap : om.get? det = some g) (hg : g ≠ "")
    (hnal : g ∉ zc.allowed_elements)
    (hval : (evaluate_zone zvs zn zc (some det) iv om).1 = some v)
    (hcomp : circuit_complete phase.zones dets = true)
    (hperm : (evaluate_circuit phase.zones dets phase.inputs om2
        phase.evaluation_order).2.any
        (fun e => strContains "não é permitido" e) = true)
    (hnrec : (evaluate_circuit phase.zones dets phase.inputs om2
        phase.evaluation_order).2.any
        (fun e => strContains "não é reconhecido" e) = false) :
    (evaluate_zone zvs zn { zc with allowed_elements := l } (some det) iv
        om).1 = (evaluate_zone zvs zn zc (some det) iv om).1 ∧
    evaluate_zone zvs zn zc (some det) iv om =
      (some v, false, notPermittedMsg g zn) ∧
    strContains "não é permitido" (notPermittedMsg g zn) = true ∧
    validate_phase (some phase) dets om2 =
      (false, "Você ainda não conseguiu! Objeto não permitido na zona.",
        (evaluate_circuit phase.zones dets phase.inputs om2
          phase.evaluation_order).1) :=
  ⟨evaluate_zone_value_ignores_allowed zvs zn zc l (some det) iv om,
   evaluate_zone_not_allowed zvs zn zc det g iv om v hdet hmap hg hnal hval,
   strContains_notPermittedMsg g zn,
   validate_phase_not_permitted_msg phase dets om2 hcomp hperm hnrec⟩

/- ================================================================
   Error-precedence analysis (claim C5)
   ================================================================ -/

/-- The per-zone error slots of one evaluation pass, in evaluation order:
entry `i` is the error recorded for the `i`-th zone of the order (`none`
when that zone was valid). -/
def circuit_zone_errors (zones : SMap ZoneConfig)
    (detected_objects : SMap (Option String)) (input_values : SMap Int)
    (object_mapping : SMap String) :
    List String → SMap (Option Int) → List (Option String)
  | [], _ => []
  | zone_name :: rest, zone_values =>
    let s := eval_zone_step zones detected_objects input_values object_mapping
      zone_values zone_name
    s.2 :: circuit_zone_errors zones detected_objects input_values
      object_mapping rest s.1

/-- The error list of the evaluation loop is exactly the in-order
projection of the per-zone error slots. -/
theorem eval_loop_errors_eq (zones : SMap ZoneConfig)
    (detected_objects : SMap (Option String)) (input_values : SMap Int)
    (object_mapping : SMap String) (order : List String)
    (zone_values : SMap (Option Int)) :
    (eval_loop zones detected_objects input_values object_mapping order
        zone_values).2 =
      (circuit_zone_errors zones detected_objects input_values object_mapping
        order zone_values).filterMap id := by
  induction order generalizing zone_values with
  | nil => rfl
  | cons hd tl ih =>
    simp only [eval_loop, circuit_zone_errors, List.filterMap_cons]
    rcases (eval_zone_step zones detected_objects input_values object_mapping
      zone_values hd) with ⟨zv1, e⟩
    rcases e with _ | msg <;> simp [ih]

theorem circuit_zone_errors_length (zones : SMap ZoneConfig)
    (detected_objects : SMap (Option String)) (input_values : SMap Int)
    (object_mapping : SMap String) (order : List String)
    (zone_values : SMap (Option Int)) :
    (circuit_zone_errors zones detected_objects input_values object_mapping
      order zone_values).length = order.length := by
  induction order generalizing zone_values with
  | nil => rfl
  | cons hd tl ih => simp [circuit_zone_errors, ih]

/-- Appending cannot erase a non-empty left part. -/
theorem data_ne_nil_append (a b : String) (h : a.data ≠ []) :
    (a ++ b).data ≠ [] := by
  rw [String.data_append]
  intro he
  exact h (List.append_eq_nil.mp he).1

/-- A string with non-empty data is not `==`-equal to the empty string. -/
theorem beq_empty_eq_false (s : String) (h : s.data ≠ []) :
    (s == "") = false := by
  rw [Bool.eq_false_iff]
  intro hbeq
  exact h (congrArg String.data (eq_of_beq hbeq))

/-- Every error produced by the upstream-collection loop is one of the two
"Input ..." messages. -/
theorem collect_input_vals_error_shape (zvs : SMap (Option Int))
    (li : List String) (e : String)
    (h : collect_input_vals zvs li = .error e) :
    ∃ w, e = "Input \x27" ++ w ++ "\x27 ainda não foi avaliado" ∨
      e = "Input \x27" ++ w ++ "\x27 tem valor inválido" := by
  induction li with
  | nil => exact absurd h (by simp [collect_input_vals])
  | cons z rest ih =>
    simp only [collect_input_vals] at h
    rcases hz : zvs.get? z with _ | ov
    · simp only [hz] at h
      exact ⟨z, Or.inl (Except.error.inj h).symm⟩
    · rcases ov with _ | v
      · simp only [hz] at h
        exact ⟨z, Or.inr (Except.error.inj h).symm⟩
      · simp only [hz] at h
        rcases hc2 : collect_input_vals zvs rest with e2 | vs
        · simp only [hc2] at h
          have he : e2 = e := Except.error.inj h
          subst he
          exact ih hc2
        · simp only [hc2] at h
          exact absurd h (by simp)

/-- Orientation helper for the validity flag equation. -/
theorem valid_false_of_msg (msg : String) (h : msg.data ≠ []) :
    false = (msg == "") := (beq_empty_eq_false msg h).symm

/-- A zone is flagged valid exactly when its error message is empty, so a
zone contributes at most one error entry and only when invalid. -/
theorem evaluate_zone_valid_iff_no_msg (zvs : SMap (Option Int)) (zn : String)
    (zc : ZoneConfig) (det : Option String) (iv : SMap Int)
    (om : SMap String) :
    (evaluate_zone zvs zn zc det iv om).2.1 =
      ((evaluate_zone zvs zn zc det iv om).2.2 == "") := by
  rcases det with _ | d
  · simp only [evaluate_zone]
    exact valid_false_of_msg _ (by (repeat apply data_ne_nil_append); decide)
  · simp only [evaluate_zone]
    by_cases hd : d = ""
    · rw [if_pos hd]
      exact valid_false_of_msg _ (by (repeat apply data_ne_nil_append); decide)
    · rw [if_neg hd]
      rcases om.get? d with _ | g
      · exact valid_false_of_msg _ (by (repeat apply data_ne_nil_append); decide)
      · dsimp only
        by_cases hg : g = ""
        · rw [if_pos hg]
          exact valid_false_of_msg _ (by (repeat apply data_ne_nil_append); decide)
        · rw [if_neg hg]
          by_cases hsrc : g = "solar_input" ∨ g = "wind_input"
          · rw [if_pos hsrc]
            rcases iv.get? (if g = "solar_input" then "solar" else "eolico")
              with _ | value
            · exact valid_false_of_msg _
                (by (repeat apply data_ne_nil_append); decide)
            · dsimp only
              by_cases hmem : g ∈ zc.allowed_elements
              · simp [hmem]
              · simp [hmem]
                exact fun he =>
                  (by (repeat apply data_ne_nil_append); decide :
                    (notPermittedMsg g zn).data ≠ [])
                    (congrArg String.data he)
          · rw [if_neg hsrc]
            by_cases hgate : (GATE_TYPES.get? g).isSome = true
            · rw [if_pos hgate]
              by_cases hin : zc.inputs.isEmpty = true
              · rw [if_pos hin]
                exact valid_false_of_msg _
                  (by (repeat apply data_ne_nil_append); decide)
              · rw [if_neg hin]
                rcases hc : collect_input_vals zvs zc.inputs with e | vals
                · dsimp only
                  obtain ⟨w, hw | hw⟩ :=
                    collect_input_vals_error_shape zvs zc.inputs e hc <;>
                  · subst hw
                    exact valid_false_of_msg _
                      (by (repeat apply data_ne_nil_append); decide)
                · rcases create_gate g with _ | gate
                  · exact valid_false_of_msg _
                      (by (repeat apply data_ne_nil_append); decide)
                  · dsimp only
                    rcases Gate.evaluate gate (vals.map some) with _ | result
                    · exact valid_false_of_msg _
                        (by (repeat apply data_ne_nil_append); decide)
                    · dsimp only
                      by_cases hmem : g ∈ zc.allowed_elements
                      · simp [hmem]
                      · simp [hmem]
                        exact fun he =>
                          (by (repeat apply data_ne_nil_append); decide :
                            (notPermittedMsg g zn).data ≠ [])
                            (congrArg String.data he)
            · rw [if_neg hgate]
              exact valid_false_of_msg _
                (by (repeat apply data_ne_nil_append); decide)

theorem gate_types_mem (g : String) (h : (GATE_TYPES.get? g).isSome = true) :
    g = "and_gate" ∨ g = "or_gate" ∨ g = "not_gate" := by
  by_cases h1 : g = "and_gate"
  · exact Or.inl h1
  by_cases h2 : g = "or_gate"
  · exact Or.inr (Or.inl h2)
  by_cases h3 : g = "not_gate"
  · exact Or.inr (Or.inr h3)
  exfalso
  have hnone : GATE_TYPES.get? g = none := by
    simp only [GATE_TYPES, SMap.get?]
    rw [if_neg (fun he => h1 he.symm), if_neg (fun he => h2 he.symm),
      if_neg (fun he => h3 he.symm)]
  rw [hnone] at h
  exact Bool.noConfusion h

theorem evaluate_zone_upstream_precedence (zvs : SMap (Option Int))
    (zn : String) (zc : ZoneConfig) (det g w : String) (ws : List String)
    (iv : SMap Int) (om : SMap String)
    (hdet : det ≠ "") (hmap : om.get? det = some g) (hg : g ≠ "")
    (hgk : (GATE_TYPES.get? g).isSome = true)
    (hins : zc.inputs = w :: ws)
    (hmiss : zvs.get? w = none) :
    evaluate_zone zvs zn zc (some det) iv om =
      (none, false, "Input \x27" ++ w ++ "\x27 ainda não foi avaliado") := by
  have hsrc : ¬(g = "solar_input" ∨ g = "wind_input") := by
    rcases gate_types_mem g hgk with h | h | h <;> subst h <;> decide
  simp only [evaluate_zone, if_neg hdet, hmap, if_neg hg, if_neg hsrc,
    if_pos hgk, hins]
  simp [collect_input_vals, hmiss]

theorem not_permitted_only_when_computed (zvs : SMap (Option Int))
    (zn : String) (zc : ZoneConfig) (det g : String) (iv : SMap Int)
    (om : SMap String)
    (hdet : det ≠ "") (hmap : om.get? det = some g) (hg : g ≠ "")
    (hpm : (evaluate_zone zvs zn zc (some det) iv om).2.2 =
      notPermittedMsg g zn) :
    ((evaluate_zone zvs zn zc (some det) iv om).1).isSome = true := by
  simp only [evaluate_zone, if_neg hdet, hmap, if_neg hg] at hpm ⊢
  by_cases hsrc : g = "solar_input" ∨ g = "wind_input"
  · rw [if_pos hsrc] at hpm ⊢
    rcases hi : iv.get? (if g = "solar_input" then "solar" else "eolico")
      with _ | value
    · rw [hi] at hpm
      exfalso
      have hd := congrArg (fun s : String => s.data.head?) hpm
      simp [notPermittedMsg, String.data_append] at hd
    · simp only [hi]
      rfl
  · rw [if_neg hsrc] at hpm ⊢
    by_cases hgate : (GATE_TYPES.get? g).isSome = true
    · rw [if_pos hgate] at hpm ⊢
      by_cases hin : zc.inputs.isEmpty = true
      · rw [if_pos hin] at hpm
        exfalso
        have hd := congrArg (fun s : String => s.data.head?) hpm
        simp [notPermittedMsg, String.data_append] at hd
      · rw [if_neg hin] at hpm ⊢
        rcases hc : collect_input_vals zvs zc.inputs with e | vals
        · simp only [hc] at hpm
          exfalso
          obtain ⟨w, hw | hw⟩ :=
            collect_input_vals_error_shape zvs zc.inputs e hc <;>
          · subst hw
            have hd := congrArg (fun s : String => s.data.head?) hpm
            simp [notPermittedMsg, String.data_append] at hd
        · simp only [hc] at hpm
          rcases hcg : create_gate g with _ | gate
          · simp only [hcg] at hpm
            exfalso
            have hd := congrArg (fun s : String => s.data.head?) hpm
            simp [notPermittedMsg, String.data_append] at hd
          · simp only [hcg] at hpm
            rcases he : Gate.evaluate gate (vals.map some) with _ | result
            · simp only [he] at hpm
              exfalso
              have hd := congrArg (fun s : String => s.data.take 2) hpm
              simp [notPermittedMsg, String.data_append] at hd
            · simp only [hc, hcg, he]
              rfl
    · rw [if_neg hgate] at hpm
      exfalso
      have hd := congrArg (fun s : String => s.data) hpm
      simp only [notPermittedMsg, String.data_append, List.append_assoc] at hd
      have h2 := List.append_cancel_left hd
      have h3 := List.append_cancel_left h2
      have h4 := congrArg (List.take 10) h3
      simp at h4

/-- A single-zone configuration used to exhibit the error precedence of
the evaluator: `and_gate`-only zone holding a solar panel object. -/
def precedence_test_zone : ZoneConfig :=
  ⟨"Z", (0, 0, 0, 0), ["and_gate"], [], (0, 0), (0, 0)⟩

/-- Claim C5 counterexample: in a zone allowing only `and_gate`, a detected
"remote" maps to `solar_input` — which is both not permitted in the zone
(the claim's condition 4) and lacking its input value in an empty input
context (the claim's condition 5).  The claim's ordering demands the
"not permitted" error; the code records the missing-input-value error and
no "not permitted" entry at all. -/
theorem error_precedence_counterexample :
    OBJECT_TO_GAME_ELEMENT.get? "remote" = some "solar_input" ∧
    ("solar_input" ∈ precedence_test_zone.allowed_elements → False) ∧
    SMap.get? ([] : SMap Int) "solar" = none ∧
    (evaluate_circuit [precedence_test_zone] [("Z", some "remote")] []
      OBJECT_TO_GAME_ELEMENT ["Z"]).2 =
      ["Valor do input \x27solar\x27 não definido"] ∧
    ((evaluate_circuit [precedence_test_zone] [("Z", some "remote")] []
      OBJECT_TO_GAME_ELEMENT ["Z"]).2.any
      (fun e => strContains "não é permitido" e)) = false := by
  refine ⟨rfl, by decide, rfl, rfl, by decide⟩

/-- Claim C5 (amended): the error list of `evaluate_circuit` is the
in-order projection of per-zone error slots — one slot per entry of the
evaluation order, hence at most one error per zone processed, appended in
evaluation order, and a zone contributes an error exactly when it is
flagged invalid (its message is non-empty).  When several conditions
apply to one zone the recorded error is the first applicable in the order
the code checks them; in particular the "element not permitted" error is
recorded only when the zone's value computation succeeds, and is preempted
by — rather than preempting — the missing-upstream-input error. -/
theorem error_list_structure (zones_config : List ZoneConfig)
    (dets : SMap (Option String)) (iv : SMap Int) (om : SMap String)
    (order : List String) (zvs : SMap (Option Int)) (zn : String)
    (zc : ZoneConfig) (det0 : Option String) (det g w : String)
    (ws : List String) (zvs2 : SMap (Option Int)) (zn2 : String)
    (zc2 : ZoneConfig) (det2 g2 : String)
    (hdet : det ≠ "") (hmap : om.get? det = some g) (hg : g ≠ "")
    (hgk : (GATE_TYPES.get? g).isSome = true)
    (hnal : g ∉ zc.allowed_elements)
    (hins : zc.inputs = w :: ws)
    (hmiss : zvs.get? w = none)
    (hdet2 : det2 ≠ "") (hmap2 : om.get? det2 = some g2) (hg2 : g2 ≠ "")
    (hpm : (evaluate_zone zvs2 zn2 zc2 (some det2) iv om).2.2 =
      notPermittedMsg g2 zn2) :
    (evaluate_circuit zones_config dets iv om order).2 =
      (circuit_zone_errors (zones_by_name zones_config) dets iv om order
        []).filterMap id ∧
    (circuit_zone_errors (zones_by_name zones_config) dets iv om order
      []).length = order.length ∧
    (evaluate_zone zvs zn zc det0 iv om).2.1 =
      ((evaluate_zone zvs zn zc det0 iv om).2.2 == "") ∧
    evaluate_zone zvs zn zc (some det) iv om =
      (none, false, "Input \x27" ++ w ++ "\x27 ainda não foi avaliado") ∧
    ((evaluate_zone zvs2 zn2 zc2 (some det2) iv om).1).isSome = true :=
  ⟨eval_loop_errors_eq (zones_by_name zones_config) dets iv om order [],
   circuit_zone_errors_length (zones_by_name zones_config) dets iv om order [],
   evaluate_zone_valid_iff_no_msg zvs zn zc det0 iv om,
   evaluate_zone_upstream_precedence zvs zn zc det g w ws iv om hdet hmap hg
     hgk hins hmiss,
   not_permitted_only_when_computed zvs2 zn2 zc2 det2 g2 iv om hdet2 hmap2
     hg2 hpm⟩

/-- Iterated ticks of `_process_recognition_validation` for one entity
holding a fixed (name, zone) pair, collecting the fire flags. -/
def process_hold (nm z key : String) : ProcState → List ℚ → ProcState × List Bool
  | st, [] => (st, [])
  | st, t :: ts =>
    let r := process_recognition_validation st nm (some z) key t
    let rest := process_hold nm z key r.1 ts
    (rest.1, r.2 :: rest.2)

/-- Modelled from the spec (§4.4): the reference dwell/cooldown automaton
for a held recognition — no commit below the dwell threshold, commit when
the dwell threshold is reached, then exactly one re-commit each time the
cooldown elapses since the last commit. -/
def dwellSpecFires (startTime : ℚ) : Option ℚ → List ℚ → List Bool
  | _, [] => []
  | lastCommit, t :: ts =>
    if t - startTime ≥ RECOGNITION_VALIDATION_TIME then
      match lastCommit with
      | none => true :: dwellSpecFires startTime (some t) ts
      | some lc =>
        if t - lc ≥ ACTION_COOLDOWN_TIME then
          true :: dwellSpecFires startTime (some t) ts
        else false :: dwellSpecFires startTime lastCommit ts
    else false :: dwellSpecFires startTime lastCommit ts

/-- Invariant run lemma: while the same (name, zone) is held, the tracked
start time never changes and the fire flags follow the spec automaton
driven by the last-commit timestamp. -/
theorem process_hold_spec (nm z key : String) (hz : z ≠ "") (t0 : ℚ)
    (ts : List ℚ) (st : ProcState) (lc : Option ℚ)
    (h1 : st.recognition_start_times.get? key = some (nm, z, t0))
    (h2 : st.validated_recognitions.get? (validatedKey key nm z) = lc) :
    (process_hold nm z key st ts).2 = dwellSpecFires t0 lc ts := by
  induction ts generalizing st lc with
  | nil => rfl
  | cons t rest ih =>
    simp only [process_hold, dwellSpecFires]
    by_cases he : t - t0 ≥ RECOGNITION_VALIDATION_TIME
    · rcases lc with _ | lcv
      · have hstep : process_recognition_validation st nm (some z) key t =
            ({ st with validated_recognitions :=
                st.validated_recognitions.insert (validatedKey key nm z) t },
              true) := by
          simp only [process_recognition_validation, if_neg hz, h1]
          rw [if_neg (by simp : ¬((nm, z) ≠ (nm, z))), if_pos he]
          rw [h2]
        rw [hstep, if_pos he]
        have h1b : ({ st with validated_recognitions :=
            st.validated_recognitions.insert (validatedKey key nm z) t } :
            ProcState).recognition_start_times.get? key = some (nm, z, t0) := h1
        simp only
        rw [ih _ (some t) h1b (SMap.get?_insert_self _ _ _)]
      · by_cases hcool : t - lcv ≥ ACTION_COOLDOWN_TIME
        · have hstep : process_recognition_validation st nm (some z) key t =
              ({ st with validated_recognitions :=
                  st.validated_recognitions.insert (validatedKey key nm z) t },
                true) := by
            simp only [process_recognition_validation, if_neg hz, h1]
            rw [if_neg (by simp : ¬((nm, z) ≠ (nm, z))), if_pos he]
            rw [h2]
            dsimp only
            rw [if_pos hcool]
          rw [hstep, if_pos he]
          have h1b : ({ st with validated_recognitions :=
              st.validated_recognitions.insert (validatedKey key nm z) t } :
              ProcState).recognition_start_times.get? key = some (nm, z, t0) :=
            h1
          simp only
          rw [ih _ (some t) h1b (SMap.get?_insert_self _ _ _), if_pos hcool]
        · have hstep : process_recognition_validation st nm (some z) key t =
              (st, false) := by
            simp only [process_recognition_validation, if_neg hz, h1]
            rw [if_neg (by simp : ¬((nm, z) ≠ (nm, z))), if_pos he]
            rw [h2]
            dsimp only
            rw [if_neg hcool]
          rw [hstep, if_pos he]
          simp only
          rw [ih _ (some lcv) h1 h2, if_neg hcool]
    · have hstep : process_recognition_validation st nm (some z) key t =
          (st, false) := by
        simp only [process_recognition_validation, if_neg hz, h1]
        rw [if_neg (by simp : ¬((nm, z) ≠ (nm, z))), if_neg he]
      rw [hstep, if_neg he]
      simp only
      rw [ih _ lc h1 h2]

/-- A first tick for an untracked entity only starts tracking. -/
theorem process_first_call (st : ProcState) (key nm z : String) (t0 : ℚ)
    (hz : z ≠ "") (hfresh : st.recognition_start_times.get? key = none) :
    process_recognition_validation st nm (some z) key t0 =
      ({ st with recognition_start_times :=
          st.recognition_start_times.insert key (nm, z, t0) }, false) := by
  simp only [process_recognition_validation, if_neg hz, hfresh]

/-- A tick reporting a different (name, zone) pair discards the tracking
and every commit record keyed under the entity, restarts the dwell timer
at the tick's timestamp, and does not fire. -/
theorem process_change_resets (st : ProcState) (key nm z nm2 z2 : String)
    (t0 t : ℚ) (hz2 : z2 ≠ "")
    (h1 : st.recognition_start_times.get? key = some (nm, z, t0))
    (hdiff : (nm, z) ≠ (nm2, z2)) :
    (process_recognition_validation st nm2 (some z2) key t).2 = false ∧
    (process_recognition_validation st nm2 (some z2) key
      t).1.recognition_start_times.get? key = some (nm2, z2, t) ∧
    (process_recognition_validation st nm2 (some z2) key
      t).1.validated_recognitions =
      st.validated_recognitions.filter (fun kv => !(strStartsWith key kv.1)) := by
  have hstep : process_recognition_validation st nm2 (some z2) key t =
      (ProcState.mk
        ((clear_recognition_tracking st key).recognition_start_times.insert
          key (nm2, z2, t))
        ((clear_recognition_tracking st key).validated_recognitions),
        false) := by
    simp only [process_recognition_validation, if_neg hz2, h1]
    rw [if_pos hdiff]
  rw [hstep]
  exact ⟨rfl, SMap.get?_insert_self _ _ _, rfl⟩

/-- Claim C2: for an entity holding one (name, zone) pair across a run of
ticks with non-decreasing timestamps, starting untracked and uncommitted:
the first tick only starts tracking; thereafter the fire flags equal the
spec's dwell/cooldown automaton — no commit below the dwell threshold,
exactly one commit when it is reached, none during the cooldown, and
exactly one more each time the cooldown elapses.  A tick reporting a
different (name, zone) pair fires nothing, discards the entity's tracking
and commit records, and restarts the dwell timer at that tick's time. -/
theorem recognition_dwell_cooldown (st st2 : ProcState)
    (key nm z nm2 z2 : String) (t0 tp tb : ℚ) (ts : List ℚ)
    (hz : z ≠ "") (hz2 : z2 ≠ "")
    (hfresh1 : st.recognition_start_times.get? key = none)
    (hfresh2 : st.validated_recognitions.get? (validatedKey key nm z) = none)
    (hchain : List.Chain (fun a b => a ≤ b) t0 ts)
    (h21 : st2.recognition_start_times.get? key = some (nm, z, tb))
    (hdiff : (nm, z) ≠ (nm2, z2)) :
    (process_recognition_validation st nm (some z) key t0).2 = false ∧
    (process_hold nm z key
      (process_recognition_validation st nm (some z) key t0).1 ts).2 =
      dwellSpecFires t0 none ts ∧
    (process_recognition_validation st2 nm2 (some z2) key tp).2 = false ∧
    (process_recognition_validation st2 nm2 (some z2) key
      tp).1.recognition_start_times.get? key = some (nm2, z2, tp) ∧
    (process_recognition_validation st2 nm2 (some z2) key
      tp).1.validated_recognitions =
      st2.validated_recognitions.filter (fun kv => !(strStartsWith key kv.1)) := by
  have hfc := process_first_call st key nm z t0 hz hfresh1
  have hcr := process_change_resets st2 key nm z nm2 z2 tb tp hz2 h21 hdiff
  refine ⟨by rw [hfc], ?_, hcr.1, hcr.2.1, hcr.2.2⟩
  rw [hfc]
  exact process_hold_spec nm z key hz t0 ts _ none
    (SMap.get?_insert_self _ _ _) hfresh2

/-- Claim C6: two `execute_action` calls with the same (name, zone) pair —
from any entities and recognition types — where the pair is not already on
cooldown: the first dispatches; a second call within the cooldown window
returns without executing, while a second call at or after the cooldown
dispatches again. -/
theorem execute_action_cooldown (st : AHState)
    (nm zn info1 info2 ty1 ty2 : String) (t1 t2 : ℚ)
    (hfresh : st.action_cooldown.get? (actionKey nm zn) = none) :
    (execute_action st nm zn info1 ty1 t1).2 = true ∧
    (t2 - t1 < ACTION_COOLDOWN_TIME →
      (execute_action (execute_action st nm zn info1 ty1 t1).1 nm zn info2
        ty2 t2).2 = false) ∧
    (ACTION_COOLDOWN_TIME ≤ t2 - t1 →
      (execute_action (execute_action st nm zn info1 ty1 t1).1 nm zn info2
        ty2 t2).2 = true) := by
  have h1 : is_action_on_cooldown st nm zn t1 = false := by
    simp [is_action_on_cooldown, hfresh]
  have hn1 : ¬ is_action_on_cooldown st nm zn t1 = true := by simp [h1]
  have hkey : (execute_action st nm zn info1 ty1 t1).1.action_cooldown.get?
      (actionKey nm zn) = some t1 := by
    unfold execute_action
    rw [if_neg hn1]
    exact SMap.get?_insert_self _ _ _
  refine ⟨?_, ?_, ?_⟩
  · unfold execute_action
    rw [if_neg hn1]
  · intro hlt
    set s1 := (execute_action st nm zn info1 ty1 t1).1 with hs1
    have h2 : is_action_on_cooldown s1 nm zn t2 = true := by
      unfold is_action_on_cooldown
      rw [hkey]
      exact decide_eq_true hlt
    unfold execute_action
    rw [if_pos h2]
  · intro hge
    set s1 := (execute_action st nm zn info1 ty1 t1).1 with hs1
    have h2 : is_action_on_cooldown s1 nm zn t2 = false := by
      unfold is_action_on_cooldown
      rw [hkey]
      exact decide_eq_false (not_lt.mpr hge)
    unfold execute_action
    rw [if_neg (by simp [h2])]

/-- Tracking state with the distinct entities "cup_1" and "cup_12", where
only "cup_12" holds a committed-recognition record. -/
def cup_collision_state : ProcState :=
  ⟨[("cup_1", ("cup", "Z1", 0)), ("cup_12", ("cup", "Z2", 0))],
   [("cup_12_cup_Z2", 5)]⟩

/-- Claim C10: clearing tracking for an entity key deletes every
committed-recognition record whose string key starts with that entity key —
including records of a distinct entity whose key has it as a proper prefix:
when "cup_1" leaves the detected set, the cleanup purges the commit record
of the still-detected, still-tracked entity "cup_12". -/
theorem clear_tracking_prefix_collision (st : ProcState) (k kk : String)
    (hpre : strStartsWith k kk = true) :
    (clear_recognition_tracking st k).validated_recognitions =
      st.validated_recognitions.filter (fun kv => !(strStartsWith k kv.1)) ∧
    (clear_recognition_tracking st k).validated_recognitions.get? kk =
      none ∧
    (strStartsWith "cup_1" "cup_12_cup_Z2" = true) ∧
    (cleanup_undetected_items cup_collision_state
      ["cup_12"]).validated_recognitions = [] ∧
    (cleanup_undetected_items cup_collision_state
      ["cup_12"]).recognition_start_times.get? "cup_12" =
      some ("cup", "Z2", 0) := by
  refine ⟨rfl, ?_, by decide, ?_, ?_⟩
  · apply SMap.get?_filter_eq_none
    intro v
    simp [hpre]
  · rfl
  · rfl

/- ================================================================
   Concrete witnesses
   ================================================================ -/

/-- The canonical correct Fase 1 placement: clock (wind) on INPUT1,
remote (solar) on INPUT2, orange (AND) on GATE1, scissors (NOT) on GATE2. -/
def fase1_canonical_dets : SMap (Option String) :=
  [("INPUT1", some "clock"), ("INPUT2", some "remote"),
   ("GATE1", some "orange"), ("GATE2", some "scissors")]

theorem fase1_validate_success_witness :
    (evaluate_circuit FASE1_CONFIG.zones fase1_canonical_dets
        FASE1_CONFIG.inputs OBJECT_TO_GAME_ELEMENT
        FASE1_CONFIG.evaluation_order).1.get? "GATE1" = some (some 0) ∧
    (evaluate_circuit FASE1_CONFIG.zones fase1_canonical_dets
        FASE1_CONFIG.inputs OBJECT_TO_GAME_ELEMENT
        FASE1_CONFIG.evaluation_order).1.get? "GATE2" = some (some 1) ∧
    (evaluate_circuit FASE1_CONFIG.zones fase1_canonical_dets
        FASE1_CONFIG.inputs OBJECT_TO_GAME_ELEMENT
        FASE1_CONFIG.evaluation_order).2 = [] ∧
    validate_phase (some FASE1_CONFIG) fase1_canonical_dets
        OBJECT_TO_GAME_ELEMENT =
      (true, "Você conseguiu!",
        (evaluate_circuit FASE1_CONFIG.zones fase1_canonical_dets
          FASE1_CONFIG.inputs OBJECT_TO_GAME_ELEMENT
          FASE1_CONFIG.evaluation_order).1) :=
  fase1_validate_success fase1_canonical_dets OBJECT_TO_GAME_ELEMENT
    "clock" "remote" "orange" "scissors" rfl rfl rfl rfl
    (by decide) (by decide) (by decide) (by decide)
    (Or.inl ⟨rfl, rfl⟩) rfl rfl

/-- The tracking state of a hand already held for a while on the right
gesture zone. -/
def held_hand_state : ProcState :=
  ⟨[("Left_hand", ("thumbs_up", "GESTOS_DIREITA", 0))], []⟩

theorem recognition_dwell_cooldown_witness :
    (process_recognition_validation ⟨[], []⟩ "thumbs_up"
      (some "GESTOS_DIREITA") "Left_hand" 0).2 = false ∧
    (process_hold "thumbs_up" "GESTOS_DIREITA" "Left_hand"
      (process_recognition_validation ⟨[], []⟩ "thumbs_up"
        (some "GESTOS_DIREITA") "Left_hand" 0).1 [1, 2, 3, 4]).2 =
      dwellSpecFires 0 none [1, 2, 3, 4] ∧
    (process_recognition_validation held_hand_state "open_palm"
      (some "GESTOS_ESQUERDA") "Left_hand" 1).2 = false ∧
    (process_recognition_validation held_hand_state "open_palm"
      (some "GESTOS_ESQUERDA") "Left_hand"
      1).1.recognition_start_times.get? "Left_hand" =
      some ("open_palm", "GESTOS_ESQUERDA", 1) ∧
    (process_recognition_validation held_hand_state "open_palm"
      (some "GESTOS_ESQUERDA") "Left_hand"
      1).1.validated_recognitions =
      held_hand_state.validated_recognitions.filter
        (fun kv => !(strStartsWith "Left_hand" kv.1)) :=
  recognition_dwell_cooldown ⟨[], []⟩ held_hand_state "Left_hand"
    "thumbs_up" "GESTOS_DIREITA" "open_palm" "GESTOS_ESQUERDA" 0 1 0
    [1, 2, 3, 4] (by decide) (by decide) rfl rfl
    (by
      refine List.Chain.cons (by norm_num) ?_
      refine List.Chain.cons (by norm_num) ?_
      refine List.Chain.cons (by norm_num) ?_
      exact List.Chain.cons (by norm_num) List.Chain.nil)
    rfl (by decide)

/-- Fase 1's GATE1 zone configuration. -/
def gate1_zone : ZoneConfig :=
  ⟨"GATE1", (850, 350, 1150, 650), ["and_gate"], ["INPUT1", "INPUT2"],
   (870, 370), (1000, 500)⟩

/-- Fase 1 placement with an OR-gate object (cell phone) on GATE1, where
only an AND gate is allowed. -/
def fase1_orgate_dets : SMap (Option String) :=
  [("INPUT1", some "clock"), ("INPUT2", some "remote"),
   ("GATE1", some "cell phone"), ("GATE2", some "scissors")]

theorem illegal_element_still_computed_witness :
    (evaluate_zone [("INPUT1", some 1), ("INPUT2", some 0)] "GATE1"
        { gate1_zone with allowed_elements := ["or_gate"] }
        (some "cell phone") FASE1_CONFIG.inputs OBJECT_TO_GAME_ELEMENT).1 =
      (evaluate_zone [("INPUT1", some 1), ("INPUT2", some 0)] "GATE1"
        gate1_zone (some "cell phone") FASE1_CONFIG.inputs
        OBJECT_TO_GAME_ELEMENT).1 ∧
    evaluate_zone [("INPUT1", some 1), ("INPUT2", some 0)] "GATE1"
        gate1_zone (some "cell phone") FASE1_CONFIG.inputs
        OBJECT_TO_GAME_ELEMENT =
      (some 1, false, notPermittedMsg "or_gate" "GATE1") ∧
    strContains "não é permitido" (notPermittedMsg "or_gate" "GATE1") =
      true ∧
    validate_phase (some FASE1_CONFIG) fase1_orgate_dets
        OBJECT_TO_GAME_ELEMENT =
      (false, "Você ainda não conseguiu! Objeto não permitido na zona.",
        (evaluate_circuit FASE1_CONFIG.zones fase1_orgate_dets
          FASE1_CONFIG.inputs OBJECT_TO_GAME_ELEMENT
          FASE1_CONFIG.evaluation_order).1) :=
  illegal_element_still_computed [("INPUT1", some 1), ("INPUT2", some 0)]
    "GATE1" gate1_zone ["or_gate"] "cell phone" "or_gate"
    FASE1_CONFIG.inputs OBJECT_TO_GAME_ELEMENT 1 FASE1_CONFIG
    fase1_orgate_dets OBJECT_TO_GAME_ELEMENT
    (by decide) rfl (by decide) (by decide) rfl rfl (by decide) (by decide)

/-- Fase 1's INPUT2 zone configuration. -/
def input2_zone : ZoneConfig :=
  ⟨"INPUT2", (450, 650, 750, 950), ["solar_input", "wind_input"], [],
   (470, 670), (600, 800)⟩

theorem empty_zone_partial_evaluation_witness :
    (evaluate_circuit FASE1_CONFIG.zones fase1_missing_input2_dets
        FASE1_CONFIG.inputs OBJECT_TO_GAME_ELEMENT
        FASE1_CONFIG.evaluation_order).1.get? "INPUT2" = some none ∧
    ("Zona " ++ "INPUT2" ++ " está vazia") ∈
      (evaluate_circuit FASE1_CONFIG.zones fase1_missing_input2_dets
        FASE1_CONFIG.inputs OBJECT_TO_GAME_ELEMENT
        FASE1_CONFIG.evaluation_order).2 ∧
    (FASE1_CONFIG.evaluation_order.all (fun z =>
      ((evaluate_circuit FASE1_CONFIG.zones fase1_missing_input2_dets
        FASE1_CONFIG.inputs OBJECT_TO_GAME_ELEMENT
        FASE1_CONFIG.evaluation_order).1.get? z).isSome)) = true ∧
    validate_phase (some FASE1_CONFIG) fase1_missing_input2_dets
        OBJECT_TO_GAME_ELEMENT =
      (false, "Você ainda não conseguiu! Circuito incompleto.",
        (evaluate_circuit FASE1_CONFIG.zones fase1_missing_input2_dets
          FASE1_CONFIG.inputs OBJECT_TO_GAME_ELEMENT
          FASE1_CONFIG.evaluation_order).1) ∧
    (evaluate_circuit FASE1_CONFIG.zones fase1_missing_input2_dets
        FASE1_CONFIG.inputs OBJECT_TO_GAME_ELEMENT
        FASE1_CONFIG.evaluation_order).1.get? "GATE1" = some none ∧
    (evaluate_circuit FASE1_CONFIG.zones fase1_missing_input2_dets
        FASE1_CONFIG.inputs OBJECT_TO_GAME_ELEMENT
        FASE1_CONFIG.evaluation_order).1.get? "GATE2" = some none :=
  empty_zone_partial_evaluation FASE1_CONFIG fase1_missing_input2_dets
    OBJECT_TO_GAME_ELEMENT "INPUT2" input2_zone (by decide) rfl
    (by decide) rfl rfl

theorem error_list_structure_witness :
    (evaluate_circuit [precedence_test_zone] [("Z", some "remote")] []
        OBJECT_TO_GAME_ELEMENT ["Z"]).2 =
      (circuit_zone_errors (zones_by_name [precedence_test_zone])
        [("Z", some "remote")] [] OBJECT_TO_GAME_ELEMENT ["Z"]
        []).filterMap id ∧
    (circuit_zone_errors (zones_by_name [precedence_test_zone])
      [("Z", some "remote")] [] OBJECT_TO_GAME_ELEMENT ["Z"] []).length =
      (["Z"] : List String).length ∧
    (evaluate_zone [] "GATE1" gate1_zone none [] OBJECT_TO_GAME_ELEMENT).2.1 =
      ((evaluate_zone [] "GATE1" gate1_zone none []
        OBJECT_TO_GAME_ELEMENT).2.2 == "") ∧
    evaluate_zone [] "GATE1" gate1_zone (some "cell phone") []
        OBJECT_TO_GAME_ELEMENT =
      (none, false,
        "Input \x27" ++ "INPUT1" ++ "\x27 ainda não foi avaliado") ∧
    ((evaluate_zone [("INPUT1", some 1), ("INPUT2", some 0)] "GATE1"
      gate1_zone (some "cell phone") [] OBJECT_TO_GAME_ELEMENT).1).isSome =
      true :=
  error_list_structure [precedence_test_zone] [("Z", some "remote")] []
    OBJECT_TO_GAME_ELEMENT ["Z"] [] "GATE1" gate1_zone none "cell phone"
    "or_gate" "INPUT1" ["INPUT2"] [("INPUT1", some 1), ("INPUT2", some 0)]
    "GATE1" gate1_zone "cell phone" "or_gate"
    (by decide) rfl (by decide) rfl (by decide) rfl rfl
    (by decide) rfl (by decide) rfl

theorem execute_action_cooldown_witness :
    (execute_action ⟨[], []⟩ "thumbs_up" "GESTOS_DIREITA" "Left_hand"
      "gesture" 0).2 = true ∧
    ((1 : ℚ) - 0 < ACTION_COOLDOWN_TIME →
      (execute_action (execute_action ⟨[], []⟩ "thumbs_up"
        "GESTOS_DIREITA" "Left_hand" "gesture" 0).1 "thumbs_up"
        "GESTOS_DIREITA" "Right_hand" "gesture" 1).2 = false) ∧
    (ACTION_COOLDOWN_TIME ≤ (1 : ℚ) - 0 →
      (execute_action (execute_action ⟨[], []⟩ "thumbs_up"
        "GESTOS_DIREITA" "Left_hand" "gesture" 0).1 "thumbs_up"
        "GESTOS_DIREITA" "Right_hand" "gesture" 1).2 = true) :=
  execute_action_cooldown ⟨[], []⟩ "thumbs_up" "GESTOS_DIREITA"
    "Left_hand" "Right_hand" "gesture" "gesture" 0 1 rfl

theorem gate_evaluation_characterization_witness :
    AndGate.evaluate [some 1, some 0] = some 0 ∧
    NotGate.evaluate [some 0] = some 1 :=
  ⟨((gate_evaluation_characterization [some 1, some 0]).2.1).mpr
    (by refine ⟨by decide, by decide, some 0, by decide, rfl⟩),
   ((gate_evaluation_characterization [some 0]).2.2.2.2.2.2.1).mpr rfl⟩

theorem evaluate_circuit_deterministic_witness :
    (CircuitEvaluator.evaluate_circuit ⟨[("X", some 1)], []⟩
        FASE1_CONFIG.zones fase1_canonical_dets FASE1_CONFIG.inputs
        OBJECT_TO_GAME_ELEMENT FASE1_CONFIG.evaluation_order).2 =
      (CircuitEvaluator.evaluate_circuit ⟨[], [("A", some "b")]⟩
        FASE1_CONFIG.zones fase1_canonical_dets FASE1_CONFIG.inputs
        OBJECT_TO_GAME_ELEMENT FASE1_CONFIG.evaluation_order).2 ∧
    (CircuitEvaluator.evaluate_circuit
        (CircuitEvaluator.evaluate_circuit ⟨[("X", some 1)], []⟩
          FASE1_CONFIG.zones fase1_canonical_dets FASE1_CONFIG.inputs
          OBJECT_TO_GAME_ELEMENT FASE1_CONFIG.evaluation_order).1
        FASE1_CONFIG.zones fase1_canonical_dets FASE1_CONFIG.inputs
        OBJECT_TO_GAME_ELEMENT FASE1_CONFIG.evaluation_order).2 =
      (CircuitEvaluator.evaluate_circuit ⟨[("X", some 1)], []⟩
        FASE1_CONFIG.zones fase1_canonical_dets FASE1_CONFIG.inputs
        OBJECT_TO_GAME_ELEMENT FASE1_CONFIG.evaluation_order).2 ∧
    (CircuitEvaluator.evaluate_circuit ⟨[("X", some 1)], []⟩
        FASE1_CONFIG.zones fase1_canonical_dets FASE1_CONFIG.inputs
        OBJECT_TO_GAME_ELEMENT FASE1_CONFIG.evaluation_order).2 =
      evaluate_circuit FASE1_CONFIG.zones fase1_canonical_dets
        FASE1_CONFIG.inputs OBJECT_TO_GAME_ELEMENT
        FASE1_CONFIG.evaluation_order :=
  evaluate_circuit_deterministic ⟨[("X", some 1)], []⟩
    ⟨[], [("A", some "b")]⟩ FASE1_CONFIG.zones fase1_canonical_dets
    FASE1_CONFIG.inputs OBJECT_TO_GAME_ELEMENT
    FASE1_CONFIG.evaluation_order

theorem evaluate_circuit_zone_values_domain_witness :
    (((evaluate_circuit FASE1_CONFIG.zones fase1_canonical_dets
        FASE1_CONFIG.inputs OBJECT_TO_GAME_ELEMENT
        FASE1_CONFIG.evaluation_order).1.get? "GATE2").isSome) = true ↔
      "GATE2" ∈ FASE1_CONFIG.evaluation_order :=
  evaluate_circuit_zone_values_domain FASE1_CONFIG.zones
    fase1_canonical_dets FASE1_CONFIG.inputs OBJECT_TO_GAME_ELEMENT
    FASE1_CONFIG.evaluation_order "GATE2"

theorem clear_tracking_prefix_collision_witness :
    (clear_recognition_tracking cup_collision_state
      "cup_1").validated_recognitions =
      cup_collision_state.validated_recognitions.filter
        (fun kv => !(strStartsWith "cup_1" kv.1)) ∧
    (clear_recognition_tracking cup_collision_state
      "cup_1").validated_recognitions.get? "cup_12_cup_Z2" = none ∧
    (strStartsWith "cup_1" "cup_12_cup_Z2" = true) ∧
    (cleanup_undetected_items cup_collision_state
      ["cup_12"]).validated_recognitions = [] ∧
    (cleanup_undetected_items cup_collision_state
      ["cup_12"]).recognition_start_times.get? "cup_12" =
      some ("cup", "Z2", 0) :=
  clear_tracking_prefix_collision cup_collision_state "cup_1"
    "cup_12_cup_Z2" (by decide)
